import Mathlib

/-!
Verification of the serde-properties line-protocol codec.

Shallow embedding of the repository sources:
  - src/lib.rs   : default escape and separator characters
  - src/error.rs : `Error` and `ParseError`
  - src/de.rs    : `parse_line`, the typed deserializers, `deserialize_any`,
                   `deserialize_map`, the `MapAccess` line-reading loop
  - src/ser.rs   : `serialize_str`, `serialize_bytes`, the struct-field and
                   sequence serializers

Strings are modelled as `String`/`List Char`; byte offsets produced by the
scanner use `Char.utf8Size`, matching `char::len_utf8` in the source.  Rust
`u64`/`i64` values are modelled as `Nat`/`Int` with explicit range checks at
the points where the source's `FromStr` parsing enforces them.
-/

namespace SerdeProps

/-- src/lib.rs:7 `pub const DEFAULT_ESCAPE: char = '\\';` -/
def DEFAULT_ESCAPE : Char := '\\'

/-- src/lib.rs:8 `pub const DEFAULT_SEPARATOR: char = '=';` -/
def DEFAULT_SEPARATOR : Char := '='

/-- src/error.rs:51-56 `pub enum ParseError { NoKey, NoValue, InvalidValue }` -/
inductive ParseError where
  | NoKey
  | NoValue
  | InvalidValue
deriving DecidableEq, Repr

/-- src/error.rs:5-11 `pub enum Error { Custom(String), IO(io::Error), Utf8(Utf8Error), Parse(ParseError) }`.
The `io::Error` and `Utf8Error` payloads are opaque foreign types and are dropped;
the constructor `IOError` stands for `Error::IO`. -/
inductive Error where
  | Custom (msg : String)
  | IOError
  | Utf8
  | Parse (e : ParseError)
deriving DecidableEq, Repr

/-- Rust `char::is_whitespace`: the Unicode `White_Space` property
(used by `str::trim` in src/de.rs:70-71). -/
def rustIsWhitespace (c : Char) : Bool :=
  [' ', '\t', '\n', '\u000B', '\u000C', '\r', '\u0085', ' ', ' ',
   ' ', ' ', ' ', ' ', ' ', ' ', ' ',
   ' ', ' ', ' ', ' ', ' ', ' ', ' ',
   ' ', '　'].contains c

/-- Rust `str::trim`: strip `char::is_whitespace` characters from both ends. -/
def trimChars (l : List Char) : List Char :=
  ((l.dropWhile rustIsWhitespace).reverse.dropWhile rustIsWhitespace).reverse

/-- Byte-indexed prefix of a character list: models `str::get_unchecked(..n)`
(src/de.rs:70).  A boundary falling inside a character cannot arise on the
offsets the scanner produces for the inputs considered here. -/
def takeBytes : List Char → Nat → List Char
  | _, 0 => []
  | [], _ + 1 => []
  | c :: rest, n + 1 =>
    if c.utf8Size ≤ n + 1 then c :: takeBytes rest (n + 1 - c.utf8Size) else []

/-- Byte-indexed suffix of a character list: models `str::get_unchecked(n..)`
(src/de.rs:71). -/
def dropBytes : List Char → Nat → List Char
  | l, 0 => l
  | [], _ + 1 => []
  | c :: rest, n + 1 =>
    if c.utf8Size ≤ n + 1 then dropBytes rest (n + 1 - c.utf8Size) else rest

/-- The character loop of `parse_line` (src/de.rs:42-64), transcribed exactly.
State: `key` is the accumulated key length in bytes (`None` while empty),
`escaped` is the escape flag.  Returns the final `(key, value)` byte offsets,
where `value` is set only by the unescaped-separator branch (`break`), or
`ParseError::NoKey` from that branch.

Note the source's end-of-iteration statement `if escaped { escaped = false }`
(src/de.rs:61-63) runs in the same iteration that sets the flag, which is
reproduced literally below. -/
def parse_line_scan (escape separator : Char) :
    List Char → Option Nat → Bool → Except ParseError (Option Nat × Option Nat)
  | [], key, _escaped => .ok (key, none)
  | c :: rest, key, escaped =>
    if !escaped && c == escape then
      -- de.rs:45 `escaped = true;`
      let escaped := true
      -- de.rs:61-63 `if escaped { escaped = false; }` (end of the same iteration)
      let escaped := if escaped then false else escaped
      parse_line_scan escape separator rest key escaped
    else if !escaped && c == separator then
      -- de.rs:47-52
      match key with
      | none => .error ParseError.NoKey
      | some k => .ok (some k, some (k + 1))
    else
      -- de.rs:54-58
      let key := some (match key with
        | some k => k + c.utf8Size
        | none => c.utf8Size)
      -- de.rs:61-63
      let escaped := if escaped then false else escaped
      parse_line_scan escape separator rest key escaped

/-- src/de.rs:39-74 `Deserializer::parse_line`: scan for the first separator
the loop treats as unescaped, then return the byte-sliced, trimmed key and
value. -/
def parse_line (escape separator : Char) (l : String) :
    Except ParseError (String × String) :=
  match parse_line_scan escape separator l.data none false with
  | .error e => .error e
  | .ok (_, none) => .error ParseError.NoValue
  | .ok (none, some _) => .error ParseError.NoValue
  | .ok (some k, some v) =>
    -- de.rs:68-73
    .ok (String.mk (trimChars (takeBytes l.data k)),
         String.mk (trimChars (dropBytes l.data v)))

/-- ASCII decimal digit test, as used by Rust's integer `FromStr`. -/
def isAsciiDigit (c : Char) : Bool := '0' ≤ c && c ≤ '9'

/-- Value of a list of decimal digits. -/
def digitsToNat (l : List Char) : Nat :=
  l.foldl (fun acc c => acc * 10 + (c.toNat - '0'.toNat)) 0

/-- Rust `bool::from_str`: exactly `"true"` or `"false"` (used through the
inference chain in src/de.rs:92-93 and by `deserialize_bool`). -/
def parse_bool (s : String) : Option Bool :=
  if s = "true" then some true
  else if s = "false" then some false
  else none

/-- Rust `u64::from_str`: optional leading `+`, then one or more ASCII digits,
value below `2 ^ 64`; a leading `-` or any other character fails. -/
def parse_u64 (s : String) : Option Nat :=
  let ds := match s.data with
    | '+' :: rest => rest
    | cs => cs
  if ds ≠ [] ∧ ds.all isAsciiDigit then
    let n := digitsToNat ds
    if n < 2 ^ 64 then some n else none
  else none

/-- Rust `i64::from_str`: optional leading `+` or `-`, then one or more ASCII
digits, value within `[-(2 ^ 63), 2 ^ 63)`. -/
def parse_i64 (s : String) : Option Int :=
  let p : Bool × List Char := match s.data with
    | '+' :: rest => (false, rest)
    | '-' :: rest => (true, rest)
    | cs => (false, cs)
  let neg := p.1
  let ds := p.2
  if ds ≠ [] ∧ ds.all isAsciiDigit then
    let v : Int := if neg then -(digitsToNat ds : Int) else (digitsToNat ds : Int)
    if -(2 ^ 63) ≤ v ∧ v < 2 ^ 63 then some v else none
  else none

/-- The scalar domains a decoded field value can land in (§4.3 of the text
format's data model): the payloads handed to the visitor by `visit_bool`,
`visit_u64`, `visit_i64`, `visit_unit` and `visit_str` in src/de.rs. -/
inductive Value where
  | bool (b : Bool)
  | u64 (n : Nat)
  | i64 (n : Int)
  | unit
  | str (s : String)
deriving DecidableEq, Repr

/-- src/de.rs:211-218 `deserialize_unit`: `NoValue` with no buffered value,
`InvalidValue` on a non-empty one, unit otherwise. -/
def deserialize_unit (current_value : Option String) : Except Error Value :=
  match current_value with
  | none => .error (Error.Parse ParseError.NoValue)
  | some v =>
    if v ≠ "" then .error (Error.Parse ParseError.InvalidValue)
    else .ok Value.unit

/-- src/de.rs:180-188 `deserialize_str`: the buffered key wins over the
buffered value; with neither, a custom error. -/
def deserialize_str (current_key current_value : Option String) :
    Except Error Value :=
  match current_key with
  | some k => .ok (Value.str k)
  | none =>
    match current_value with
    | some v => .ok (Value.str v)
    | none => .error (Error.Custom "No key or value")

/-- src/de.rs:88-106 `deserialize_any`: with a key buffered, defer to
`deserialize_str`; otherwise try `bool`, then `u64`, then `i64` on the
buffered value, then unit if it is empty, else string; with nothing buffered,
`NoValue`. -/
def deserialize_any (current_key current_value : Option String) :
    Except Error Value :=
  match current_key with
  | some _ => deserialize_str current_key current_value
  | none =>
    match current_value with
    | none => .error (Error.Parse ParseError.NoValue)
    | some value =>
      match parse_bool value with
      | some b => .ok (Value.bool b)
      | none =>
        match parse_u64 value with
        | some n => .ok (Value.u64 n)
        | none =>
          match parse_i64 value with
          | some n => .ok (Value.i64 n)
          | none =>
            if value = "" then deserialize_unit (some value)
            else deserialize_str none (some value)

/-- src/de.rs:259-264: the guard of `deserialize_map`.  `Ok ()` stands for
proceeding into `visitor.visit_map`. -/
def deserialize_map (current_key current_value : Option String) :
    Except Error Unit :=
  if current_value.isSome || current_key.isSome then
    .error (Error.Custom "Nested maps or structs not supported")
  else .ok ()

/-- src/de.rs:266-273 `deserialize_struct` forwards to `deserialize_map`. -/
def deserialize_struct (current_key current_value : Option String) :
    Except Error Unit :=
  deserialize_map current_key current_value

/-- The error value the nesting guard produces; §7 of the format description
calls this kind `UnsupportedNesting`. -/
def unsupportedNesting : Error :=
  Error.Custom "Nested maps or structs not supported"

/-! ## Serializer (src/ser.rs) -/

/-- src/ser.rs:101-108 `serialize_str`: replace every escape character by two
escape characters, then every separator by escape-then-separator.  Rust
`str::replace` with a single-character pattern rewrites each occurrence
independently, hence the per-character expansion. -/
def serialize_str (escape separator : Char) (v : String) : String :=
  let s := v.data.flatMap (fun c => if c = escape then [escape, escape] else [c])
  let s := s.flatMap (fun c => if c = separator then [escape, separator] else [c])
  String.mk s

/-- The text the typed `serialize_*` methods write for one scalar
(src/ser.rs:53-108, 125-127): `to_string` for booleans and integers, nothing
for unit, the escaped form for strings. -/
def serialize_scalar (escape separator : Char) : Value → String
  | .bool b => if b then "true" else "false"
  | .u64 n => toString n
  | .i64 n => toString n
  | .unit => ""
  | .str s => serialize_str escape separator s

/-- src/ser.rs:217-235 `ser::SerializeSeq for SeqSerializer`: each element
writes `","` first unless `first` is set — and nothing in this impl ever
clears `first`, transcribed literally (compare src/ser.rs:237-256, the tuple
impl, which does clear it). -/
def serialize_seq_elements (escape separator : Char) (first : Bool) :
    List Value → String
  | [] => ""
  | v :: rest =>
    (if !first then "," else "") ++ serialize_scalar escape separator v
      ++ serialize_seq_elements escape separator first rest

/-- A field's value on the encode side: a scalar, or a sequence serialized
through `SerializeSeq` (src/ser.rs:162-167 starts it with `first = true`). -/
inductive FieldVal where
  | scalar (v : Value)
  | list (vs : List Value)

/-- The text written for a field's value. -/
def serialize_field_value (escape separator : Char) : FieldVal → String
  | .scalar v => serialize_scalar escape separator v
  | .list vs => serialize_seq_elements escape separator true vs

/-- src/ser.rs:317-335 `SerializeStruct::serialize_field`: write the raw key,
the separator, the serialized value, then a newline byte. -/
def serialize_field (escape separator : Char) (key : String) (v : FieldVal) :
    String :=
  key ++ String.mk [separator] ++ serialize_field_value escape separator v ++ "\n"

/-- A structured record encoded field by field in declared order
(src/ser.rs:317-335 driven once per field). -/
def encode_record (escape separator : Char)
    (fields : List (String × FieldVal)) : String :=
  String.join (fields.map fun f => serialize_field escape separator f.1 f.2)

/-! ## Record decoding driver -/

/-- The statically-known scalar target types of a record field that the
claims exercise. -/
inductive FieldTy where
  | u64T
  | i64T
  | boolT
  | strT
  | unitT
deriving DecidableEq, Repr

/-- Decoding one field value of a statically-known type, with `current_key`
already cleared (src/de.rs:309) and `current_value` as given.  The numeric
and boolean cases go through `Deserializer::deserialize` (src/de.rs:80-84):
no buffered value is `NoValue`, a failed parse is `InvalidValue`.  String and
unit targets use `deserialize_str` / `deserialize_unit`. -/
def decode_field (ty : FieldTy) (current_value : Option String) :
    Except Error Value :=
  match ty with
  | .u64T =>
    match current_value with
    | none => .error (Error.Parse ParseError.NoValue)
    | some v =>
      match parse_u64 v with
      | some n => .ok (Value.u64 n)
      | none => .error (Error.Parse ParseError.InvalidValue)
  | .i64T =>
    match current_value with
    | none => .error (Error.Parse ParseError.NoValue)
    | some v =>
      match parse_i64 v with
      | some n => .ok (Value.i64 n)
      | none => .error (Error.Parse ParseError.InvalidValue)
  | .boolT =>
    match current_value with
    | none => .error (Error.Parse ParseError.NoValue)
    | some v =>
      match parse_bool v with
      | some b => .ok (Value.bool b)
      | none => .error (Error.Parse ParseError.InvalidValue)
  | .strT => deserialize_str none current_value
  | .unitT => deserialize_unit current_value

/-- `BufRead::read_line` as used in src/de.rs:300-304: collect characters up
to and including the first newline (or to end of input), returning `none` on
zero bytes read. -/
def read_line : List Char → Option (List Char × List Char)
  | [] => none
  | c :: rest =>
    if c = '\n' then some ([c], rest)
    else
      match read_line rest with
      | none => some ([c], [])
      | some (line, remaining) => some (c :: line, remaining)

/-- A list of newline-free lines assembled into one input stream, each line
newline-terminated. -/
def join_lines (ls : List (List Char)) : List Char :=
  (ls.map (fun l => l ++ ['\n'])).flatten

/-- Modelled from the spec: the record-building driver (the derive-generated
visitor of the embedding serialization framework, which is not part of this
repository's sources).  Per §4.4 it awaits each field of the target shape in
declared order: it obtains the next line through `MapAccess::next_key_seed`
(src/de.rs:296-311), which at end of input reports that no pair is left and
otherwise splits the line with `parse_line` and buffers key and value; the
driver resolves the field name against the buffered key and then requests
the field's value (src/de.rs:313-320), which at end of input is requested
with no value buffered. -/
def decode_record (escape separator : Char) :
    List (String × FieldTy) → List Char → Except Error (List Value)
  | [], _ => .ok []
  | (name, ty) :: fields, input =>
    match read_line input with
    | none =>
      -- end of input: the awaited field's value is requested with nothing buffered
      match decode_field ty none with
      | .error e => .error e
      | .ok v => (decode_record escape separator fields []).map (v :: ·)
    | some (line, remaining) =>
      match parse_line escape separator (String.mk line) with
      | .error e => .error (Error.Parse e)
      | .ok kv =>
        if kv.1 = name then
          match decode_field ty (some kv.2) with
          | .error e => .error e
          | .ok v => (decode_record escape separator fields remaining).map (v :: ·)
        else .error (Error.Custom "unknown field")

/-! ## The per-instance configuration (src/de.rs:7-13, src/ser.rs:7-11) -/

/-- src/de.rs:7-13 `struct Deserializer`: the input stream, the two buffered
slots and the two configured characters. -/
structure Deserializer where
  input : List Char
  current_key : Option String
  current_value : Option String
  escape : Char
  separator : Char

/-- src/de.rs:29-37 `Deserializer::new`: empty buffers, default characters. -/
def Deserializer.new (input : List Char) : Deserializer :=
  { input := input
    current_key := none
    current_value := none
    escape := DEFAULT_ESCAPE
    separator := DEFAULT_SEPARATOR }

/-- src/de.rs:15-17 `from_str` hands the string's bytes to `from_bytes`. -/
def from_str (s : String) : Deserializer := Deserializer.new s.data

/-- src/de.rs:19-21 `from_bytes` wraps the bytes in a reader for
`from_buf_read`. -/
def from_bytes (b : List Char) : Deserializer := Deserializer.new b

/-- src/de.rs:23-26 `from_buf_read` constructs the deserializer with
`Deserializer::new`. -/
def from_buf_read (b : List Char) : Deserializer := Deserializer.new b

/-- src/de.rs:306-307: `next_key_seed` buffers the parsed key and value and
advances the input. -/
def Deserializer.load_pair (d : Deserializer) (k v : String)
    (rest : List Char) : Deserializer :=
  { d with input := rest, current_key := some k, current_value := some v }

/-- src/de.rs:309: `next_key_seed` clears the key after the seed consumed it. -/
def Deserializer.clear_key (d : Deserializer) : Deserializer :=
  { d with current_key := none }

/-- src/de.rs:318: `next_value_seed` clears the value after the seed consumed
it. -/
def Deserializer.clear_value (d : Deserializer) : Deserializer :=
  { d with current_value := none }

/-- src/de.rs:349: `SeqDeserializer::next_element_seed` buffers one list
element as the current value. -/
def Deserializer.set_value (d : Deserializer) (v : String) : Deserializer :=
  { d with current_value := some v }

/-- src/ser.rs:7-11 `struct Serializer`: the output sink and the two
configured characters.  The output is modelled as the text written so far. -/
structure Serializer where
  output : List Char
  separator : Char
  escape : Char

/-- src/ser.rs:27-33 `Serializer::new`: default characters. -/
def Serializer.new : Serializer :=
  { output := []
    separator := DEFAULT_SEPARATOR
    escape := DEFAULT_ESCAPE }

/-- src/ser.rs:34-37 `write_value` appends bytes to the output. -/
def Serializer.write_value (s : Serializer) (v : String) : Serializer :=
  { s with output := s.output ++ v.data }

/-- src/ser.rs:18-24 `to_writer` constructs its serializer with
`Serializer::new`. -/
def to_writer_serializer : Serializer := Serializer.new

/-! ## serialize_bytes (src/ser.rs:110-112) -/

/-- A UTF-8 continuation byte (`10xxxxxx`). -/
def isCont (b : UInt8) : Bool := 0x80 ≤ b && b ≤ 0xBF

/-- Rust `str::from_utf8` validity: the standard UTF-8 byte-sequence table
(two-byte sequences `C2..DF`, three-byte with the `E0`/`ED` overlong and
surrogate exclusions, four-byte with the `F0`/`F4` range exclusions). -/
def valid_utf8 : List UInt8 → Bool
  | [] => true
  | b :: rest =>
    if b ≤ 0x7F then valid_utf8 rest
    else if 0xC2 ≤ b && b ≤ 0xDF then
      match rest with
      | b2 :: r => isCont b2 && valid_utf8 r
      | [] => false
    else if b = 0xE0 then
      match rest with
      | b2 :: b3 :: r => (0xA0 ≤ b2 && b2 ≤ 0xBF) && isCont b3 && valid_utf8 r
      | _ => false
    else if (0xE1 ≤ b && b ≤ 0xEC) || (0xEE ≤ b && b ≤ 0xEF) then
      match rest with
      | b2 :: b3 :: r => isCont b2 && isCont b3 && valid_utf8 r
      | _ => false
    else if b = 0xED then
      match rest with
      | b2 :: b3 :: r => (0x80 ≤ b2 && b2 ≤ 0x9F) && isCont b3 && valid_utf8 r
      | _ => false
    else if b = 0xF0 then
      match rest with
      | b2 :: b3 :: b4 :: r =>
        (0x90 ≤ b2 && b2 ≤ 0xBF) && isCont b3 && isCont b4 && valid_utf8 r
      | _ => false
    else if 0xF1 ≤ b && b ≤ 0xF3 then
      match rest with
      | b2 :: b3 :: b4 :: r => isCont b2 && isCont b3 && isCont b4 && valid_utf8 r
      | _ => false
    else if b = 0xF4 then
      match rest with
      | b2 :: b3 :: b4 :: r =>
        (0x80 ≤ b2 && b2 ≤ 0x8F) && isCont b3 && isCont b4 && valid_utf8 r
      | _ => false
    else false

/-- src/ser.rs:110-112 `serialize_bytes`: `from_utf8(v)?` then write the
resulting text — whose bytes are exactly `v` — with no escaping; invalid
UTF-8 surfaces as `Error::Utf8` through the `From` impl (src/error.rs:33-37). -/
def serialize_bytes (v : List UInt8) : Except Error (List UInt8) :=
  if valid_utf8 v then .ok v else .error Error.Utf8

/-- The UTF-8 bytes of an ASCII string, for concrete instances. -/
def ascii_bytes (s : String) : List UInt8 :=
  s.data.map (fun c => UInt8.ofNat c.toNat)

/-! ## Claims -/

/-- C1 (refuting evaluation): encode-then-decode does not reproduce a string
value containing the separator.  Encoding the value `"="` in field `"k"`
yields the line `"k=\=\n"`; splitting that line back hands the field value
`"\="` — the deserializer applies no unescaping (and its escape flag is
cleared in the same loop iteration that sets it, src/de.rs:61-63), so the
original `"="` is not recovered. -/
theorem claim_C1_roundtrip_fails :
    serialize_field DEFAULT_ESCAPE DEFAULT_SEPARATOR "k"
      (FieldVal.scalar (Value.str "=")) = "k=\\=\n" ∧
    parse_line DEFAULT_ESCAPE DEFAULT_SEPARATOR "k=\\=\n" = .ok ("k", "\\=") ∧
    deserialize_str none (some "\\=") = .ok (Value.str "\\=") ∧
    Value.str "\\=" ≠ Value.str "=" := by
  refine ⟨rfl, rfl, rfl, ?_⟩
  decide

/-- C2 (refuting evaluation): an escape character does not protect the
following separator.  On the line `"a\=b=c"`, whose first separator is
immediately preceded by an escape character, the scan still treats that first
`=` as the unescaped separator — the key is `"a"` and the value `"=b=c"`,
not key `"a=b"` with value `"c"` as the claimed algorithm would produce. -/
theorem claim_C2_escaped_separator_splits :
    parse_line DEFAULT_ESCAPE DEFAULT_SEPARATOR "a\\=b=c" = .ok ("a", "=b=c") ∧
    ("a", "=b=c") ≠ (("a=b", "c") : String × String) := by
  refine ⟨rfl, ?_⟩
  decide

/-- C3 (refuting evaluation): the sequence serializer writes no comma between
adjacent elements, because `SerializeSeq::serialize_element`
(src/ser.rs:217-235) never clears its `first` flag; the two-element sequence
`[1, 2]` is written as `"12"`, and as a field value the line is `"xs=12\n"`. -/
theorem claim_C3_seq_writes_no_commas :
    serialize_seq_elements DEFAULT_ESCAPE DEFAULT_SEPARATOR true
      [Value.u64 1, Value.u64 2] = "12" ∧
    serialize_field DEFAULT_ESCAPE DEFAULT_SEPARATOR "xs"
      (FieldVal.list [Value.u64 1, Value.u64 2]) = "xs=12\n" ∧
    ("12" : String) ≠ "1,2" := by
  refine ⟨rfl, rfl, ?_⟩
  decide

/-- C7 (evaluation): the two example lines behave as claimed — `"onlykey"`
fails with `NoValue` and `"=value"` fails with `NoKey` — but the universal
statement fails: the line `"a\=b"`, whose only separator is preceded by an
escape character and so contains no unescaped separator, does not fail with
`NoValue`; it splits successfully into `("a", "=b")`. -/
theorem claim_C7_split_failures :
    parse_line DEFAULT_ESCAPE DEFAULT_SEPARATOR "onlykey"
      = .error ParseError.NoValue ∧
    parse_line DEFAULT_ESCAPE DEFAULT_SEPARATOR "=value"
      = .error ParseError.NoKey ∧
    parse_line DEFAULT_ESCAPE DEFAULT_SEPARATOR "a\\=b" = .ok ("a", "=b") :=
  ⟨rfl, rfl, rfl⟩

/-- C8: the input `"int=10\n"` decoded into a one-field record shape with an
unsigned-integer field named `int` yields `{int: 10}`, and encoding that
record yields exactly the bytes `"int=10\n"`. -/
theorem claim_C8_example_roundtrip :
    decode_record DEFAULT_ESCAPE DEFAULT_SEPARATOR [("int", FieldTy.u64T)]
      ("int=10\n".data) = .ok [Value.u64 10] ∧
    encode_record DEFAULT_ESCAPE DEFAULT_SEPARATOR
      [("int", FieldVal.scalar (Value.u64 10))] = "int=10\n" :=
  ⟨rfl, rfl⟩

/-- C4: in untyped (`deserialize_any`) decode mode with a value buffered and
the key slot already cleared (as it is when a field value is decoded,
src/de.rs:309), inference tries boolean, then unsigned 64-bit, then signed
64-bit, then unit on the empty string, else string — first success wins; in
particular `"1"` is unsigned, `"-1"` signed, `"true"` boolean, `""` unit and
`"abc"` a string. -/
theorem claim_C4_inference_precedence :
    deserialize_any none (some "1") = .ok (Value.u64 1) ∧
    deserialize_any none (some "-1") = .ok (Value.i64 (-1)) ∧
    deserialize_any none (some "true") = .ok (Value.bool true) ∧
    deserialize_any none (some "") = .ok Value.unit ∧
    deserialize_any none (some "abc") = .ok (Value.str "abc") ∧
    (∀ v b, parse_bool v = some b →
      deserialize_any none (some v) = .ok (Value.bool b)) ∧
    (∀ v n, parse_bool v = none → parse_u64 v = some n →
      deserialize_any none (some v) = .ok (Value.u64 n)) ∧
    (∀ v n, parse_bool v = none → parse_u64 v = none → parse_i64 v = some n →
      deserialize_any none (some v) = .ok (Value.i64 n)) ∧
    (∀ v, parse_bool v = none → parse_u64 v = none → parse_i64 v = none →
      v = "" → deserialize_any none (some v) = .ok Value.unit) ∧
    (∀ v, parse_bool v = none → parse_u64 v = none → parse_i64 v = none →
      v ≠ "" → deserialize_any none (some v) = .ok (Value.str v)) := by
  refine ⟨rfl, rfl, rfl, rfl, rfl, ?_, ?_, ?_, ?_, ?_⟩
  · intro v b h
    simp [deserialize_any, h]
  · intro v n h1 h2
    simp [deserialize_any, h1, h2]
  · intro v n h1 h2 h3
    simp [deserialize_any, h1, h2, h3]
  · intro v h1 h2 h3 h4
    subst h4
    simp [deserialize_any, h1, h2, h3, deserialize_unit]
  · intro v h1 h2 h3 h4
    simp [deserialize_any, h1, h2, h3, h4, deserialize_str]

/-- Witness for C4 at the concrete value `"false"`. -/
theorem claim_C4_witness :
    deserialize_any none (some "false") = .ok (Value.bool false) :=
  claim_C4_inference_precedence.2.2.2.2.2.1 "false" false rfl

/-- C5: entering map- or struct-style decoding while a key or a value is
buffered always fails with the nesting error — the fixed
`Error::Custom("Nested maps or structs not supported")` value that the
format description names `UnsupportedNesting` — and with no other outcome;
in particular a field value decoded as a nested struct fails this way. -/
theorem claim_C5_nesting_rejected :
    (∀ k v : Option String, k.isSome = true ∨ v.isSome = true →
      deserialize_map k v = .error unsupportedNesting) ∧
    (∀ k v : Option String, k.isSome = true ∨ v.isSome = true →
      deserialize_struct k v = .error unsupportedNesting) ∧
    deserialize_struct none (some "x")
      = .error (Error.Custom "Nested maps or structs not supported") := by
  refine ⟨?_, ?_, rfl⟩ <;>
    · intro k v h
      rcases h with h | h <;>
        simp [deserialize_struct, deserialize_map, unsupportedNesting, h]

/-- Witness for C5 with a buffered key. -/
theorem claim_C5_witness :
    deserialize_map (some "k") none = .error unsupportedNesting :=
  claim_C5_nesting_rejected.1 (some "k") none (Or.inl rfl)

/-- C9: every deserializer and serializer reachable from the public entry
points is built by `Deserializer::new` / `Serializer::new` with separator
`'='` and escape `'\'`, and none of the state-changing operations in the
sources touches the two character fields. -/
theorem claim_C9_fixed_configuration :
    (∀ i, (Deserializer.new i).escape = DEFAULT_ESCAPE ∧
          (Deserializer.new i).separator = DEFAULT_SEPARATOR) ∧
    (∀ s, from_str s = Deserializer.new s.data) ∧
    (∀ b, from_bytes b = Deserializer.new b) ∧
    (∀ b, from_buf_read b = Deserializer.new b) ∧
    (Serializer.new.escape = DEFAULT_ESCAPE ∧
     Serializer.new.separator = DEFAULT_SEPARATOR) ∧
    to_writer_serializer = Serializer.new ∧
    (∀ d k v r, (Deserializer.load_pair d k v r).escape = d.escape ∧
                (Deserializer.load_pair d k v r).separator = d.separator) ∧
    (∀ d, (Deserializer.clear_key d).escape = d.escape ∧
          (Deserializer.clear_key d).separator = d.separator) ∧
    (∀ d, (Deserializer.clear_value d).escape = d.escape ∧
          (Deserializer.clear_value d).separator = d.separator) ∧
    (∀ d v, (Deserializer.set_value d v).escape = d.escape ∧
            (Deserializer.set_value d v).separator = d.separator) ∧
    (∀ s v, (Serializer.write_value s v).escape = s.escape ∧
            (Serializer.write_value s v).separator = s.separator) :=
  ⟨fun _ => ⟨rfl, rfl⟩, fun _ => rfl, fun _ => rfl, fun _ => rfl,
   ⟨rfl, rfl⟩, rfl, fun _ _ _ _ => ⟨rfl, rfl⟩, fun _ => ⟨rfl, rfl⟩,
   fun _ => ⟨rfl, rfl⟩, fun _ _ => ⟨rfl, rfl⟩, fun _ _ => ⟨rfl, rfl⟩⟩

/-- C10: `serialize_bytes` writes valid-UTF-8 byte slices verbatim — the
output bytes are the input bytes, so separator and escape occurrences stay
unescaped, unlike `serialize_str`, which rewrites them — and fails with the
`Utf8` error kind on invalid UTF-8. -/
theorem claim_C10_bytes_verbatim :
    (∀ v, valid_utf8 v = true → serialize_bytes v = .ok v) ∧
    (∀ v, valid_utf8 v = false → serialize_bytes v = .error Error.Utf8) ∧
    serialize_bytes (ascii_bytes "a=\\b") = .ok (ascii_bytes "a=\\b") ∧
    serialize_str DEFAULT_ESCAPE DEFAULT_SEPARATOR "a=\\b" = "a\\=\\\\b" ∧
    ascii_bytes "a\\=\\\\b" ≠ ascii_bytes "a=\\b" ∧
    serialize_bytes [0xFF] = .error Error.Utf8 := by
  refine ⟨?_, ?_, rfl, rfl, ?_, rfl⟩
  · intro v h
    simp [serialize_bytes, h]
  · intro v h
    simp [serialize_bytes, h]
  · decide

/-- Witness for C10 at the single separator byte `0x3D`. -/
theorem claim_C10_witness : serialize_bytes [0x3D] = .ok [0x3D] :=
  claim_C10_bytes_verbatim.1 [0x3D] rfl

/-- C6 (refuting evaluation): with fewer lines than fields the decode always
fails, but not always with `NoValue`: a string-typed awaited field at end of
input fails with the custom `"No key or value"` error from `deserialize_str`
(src/de.rs:186), and a malformed available line (here `"=x"`) fails with
`NoKey` before the missing line is ever reached. -/
theorem claim_C6_counterexample :
    decode_record DEFAULT_ESCAPE DEFAULT_SEPARATOR [("a", FieldTy.strT)] []
      = .error (Error.Custom "No key or value") ∧
    decode_record DEFAULT_ESCAPE DEFAULT_SEPARATOR
      [("a", FieldTy.u64T), ("b", FieldTy.u64T)] ("=x\n".data)
      = .error (Error.Parse ParseError.NoKey) ∧
    Error.Custom "No key or value" ≠ Error.Parse ParseError.NoValue ∧
    Error.Parse ParseError.NoKey ≠ Error.Parse ParseError.NoValue := by
  refine ⟨rfl, rfl, ?_, ?_⟩ <;> decide

/-- One available line decodes cleanly for one field: the newline-terminated
line splits, the key matches the field's name, and the value decodes at the
field's type. -/
def line_decodes (escape separator : Char) (f : String × FieldTy)
    (l : List Char) : Bool :=
  match parse_line escape separator (String.mk (l ++ ['\n'])) with
  | .error _ => false
  | .ok kv =>
    decide (kv.1 = f.1) && (decode_field f.2 (some kv.2)).toOption.isSome

/-- For every non-string field type, requesting the value with nothing
buffered fails with `NoValue` (src/de.rs:80-84, 203, 212). -/
theorem decode_field_none (ty : FieldTy) (h : ty ≠ FieldTy.strT) :
    decode_field ty none = .error (Error.Parse ParseError.NoValue) := by
  cases ty <;> first | rfl | exact absurd rfl h

/-- Reading from a stream that starts with a newline-free line returns that
line with its terminator and leaves the remaining stream. -/
theorem read_line_join (l : List Char) (ls : List (List Char))
    (h : l.all (fun c => decide (c ≠ '\n')) = true) :
    read_line (join_lines (l :: ls)) = some (l ++ ['\n'], join_lines ls) := by
  induction l with
  | nil => simp [join_lines, read_line]
  | cons c cs ih =>
    simp only [List.all_cons, Bool.and_eq_true, decide_eq_true_eq] at h
    have hc : c ≠ '\n' := h.1
    have ih' := ih h.2
    simp only [join_lines, List.map_cons, List.flatten_cons, List.cons_append]
      at ih' ⊢
    simp only [List.append_assoc, List.singleton_append] at ih'
    rw [read_line]
    simp [hc, ih']

/-- C6 (amended): for a target shape of non-string scalar fields, decoding an
input holding fewer newline-terminated lines than the shape has fields —
each available line splitting into the awaited field's name and a value that
decodes at that field's type — fails with the `NoValue` error and returns no
record at all. -/
theorem claim_C6_missing_lines_no_value :
    ∀ (fields : List (String × FieldTy)) (ls : List (List Char)),
      ls.length < fields.length →
      fields.all (fun f => decide (f.2 ≠ FieldTy.strT)) = true →
      ls.all (fun l => l.all (fun c => decide (c ≠ '\n'))) = true →
      ((fields.take ls.length).zip ls).all
        (fun p => line_decodes DEFAULT_ESCAPE DEFAULT_SEPARATOR p.1 p.2)
        = true →
      decode_record DEFAULT_ESCAPE DEFAULT_SEPARATOR fields (join_lines ls)
        = .error (Error.Parse ParseError.NoValue) := by
  intro fields ls
  induction ls generalizing fields with
  | nil =>
    intro hlen hstr _hnl _hzip
    cases fields with
    | nil => exact absurd hlen (by simp)
    | cons f fs =>
      obtain ⟨name, ty⟩ := f
      simp only [List.all_cons, Bool.and_eq_true, decide_eq_true_eq] at hstr
      have hdf := decode_field_none ty hstr.1
      simp [join_lines, decode_record, read_line, hdf]
  | cons l ls' ih =>
    intro hlen hstr hnl hzip
    cases fields with
    | nil => exact absurd hlen (by simp)
    | cons f fs =>
      obtain ⟨name, ty⟩ := f
      simp only [List.all_cons, Bool.and_eq_true, decide_eq_true_eq] at hstr hnl
      simp only [List.length_cons, List.take_succ_cons, List.zip_cons_cons,
        List.all_cons, Bool.and_eq_true] at hzip
      have hline := hzip.1
      rw [line_decodes] at hline
      cases hp : parse_line DEFAULT_ESCAPE DEFAULT_SEPARATOR
          (String.mk (l ++ ['\n'])) with
      | error e => rw [hp] at hline; simp at hline
      | ok kv =>
        rw [hp] at hline
        simp only [Bool.and_eq_true, decide_eq_true_eq, Option.isSome_iff_exists]
          at hline
        obtain ⟨hk, w, hw⟩ := hline
        cases hv : decode_field ty (some kv.2) with
        | error e => rw [hv] at hw; cases hw
        | ok v =>
          have hrest := ih fs (by simpa using hlen) hstr.2
            (by simpa using hnl.2) hzip.2
          rw [decode_record, read_line_join l ls' hnl.1]
          simp [hp, hk, hv, hrest, Except.map]

/-- Witness for C6 (amended): a two-field unsigned shape with a single clean
line fails with `NoValue`. -/
theorem claim_C6_witness :
    decode_record DEFAULT_ESCAPE DEFAULT_SEPARATOR
      [("a", FieldTy.u64T), ("b", FieldTy.u64T)]
      (join_lines [['a', '=', '1']]) = .error (Error.Parse ParseError.NoValue) :=
  claim_C6_missing_lines_no_value
    [("a", FieldTy.u64T), ("b", FieldTy.u64T)] [['a', '=', '1']]
    (by decide) (by decide) (by decide) (by decide)

end SerdeProps
